import Mathlib

/-!
Verification of the pelican build-orchestration core
(src/pelican/__init__.py) against its natural-language specification.

The Python source is shallowly embedded: the generator composer
(Pelican.get_generator_classes), the two-phase build (Pelican.run), the
output-directory guard, the autoreload watch loop and the one-shot fatal
error handler of main() become pure Lean functions over explicit inputs
(settings flags, hook responses, resolved paths, and per-iteration
outcomes of the external calls the loop makes).
-/

/-! ## Python string prefix test

Model of the Python expression s.startswith(pre): pre is a string prefix
of s.  Used by the output-directory guard in Pelican.run (line 157).
-/

/-- Embeds Python str.startswith: the second argument is a character-wise
prefix of the first. -/
def pyStartswith (s pre : String) : Bool := pre.data.isPrefixOf s.data

/-! ## Generator composer (Pelican.get_generator_classes, lines 173-196)

Generator classes are named by GenCls; values contributed by the
get_generators signal hook are arbitrary Python values, modelled by PyVal:
a generator type, a tuple/list of values, or any other (non-type) object.
-/

/-- The generator classes known to the composer: the seven classes imported
at lines 10-13, plus arbitrary hook-contributed classes. -/
inductive GenCls where
  | StaticGenerator
  | ArticlesGenerator
  | PagesGenerator
  | TemplatePagesGenerator
  | PdfGenerator
  | LessCSSGenerator
  | SourceFileGenerator
  | custom (n : Nat)
deriving DecidableEq

/-- A Python value returned by a get_generators hook subscriber: a
generator type, a tuple or list of values, or some non-type object. -/
inductive PyVal where
  | type (t : GenCls)
  | seq (vs : List PyVal)
  | other

/-- The settings flags consulted by get_generator_classes
(TEMPLATE_PAGES, PDF_GENERATOR, LESS_GENERATOR, OUTPUT_SOURCES): each is
the truthiness of the corresponding setting. -/
structure ComposerSettings where
  template_pages : Bool
  pdf_generator : Bool
  less_generator : Bool
  output_sources : Bool

/-- Embeds lines 188-189: a value that is not a tuple or list is wrapped
into a one-element tuple before iterating. -/
def hookValues : PyVal → List PyVal
  | PyVal.seq vs => vs
  | v => [v]

/-- Embeds the inner loop of lines 191-194: append every element that is
an instance of type, keep the accumulator otherwise. -/
def hookElemFold (acc : List GenCls) (v : PyVal) : List GenCls :=
  match v with
  | PyVal.type t => acc ++ [t]
  | _ => acc

/-- Embeds one round of the hook loop (lines 185-194) for a single
subscriber response. -/
def appendHook (gens : List GenCls) (value : PyVal) : List GenCls :=
  (hookValues value).foldl hookElemFold gens

/-- Embeds Pelican.get_generator_classes (lines 173-196).  The responses
argument is the list of values returned by the subscribers of the
get_generators signal, in send order. -/
def get_generator_classes (s : ComposerSettings) (responses : List PyVal) :
    List GenCls :=
  let generators := [GenCls.StaticGenerator, GenCls.ArticlesGenerator,
                     GenCls.PagesGenerator]
  let generators := if s.template_pages
    then generators ++ [GenCls.TemplatePagesGenerator] else generators
  let generators := if s.pdf_generator
    then generators ++ [GenCls.PdfGenerator] else generators
  let generators := if s.less_generator
    then generators ++ [GenCls.LessCSSGenerator] else generators
  let generators := if s.output_sources
    then generators ++ [GenCls.SourceFileGenerator] else generators
  responses.foldl appendHook generators

/-- The generator type carried by a hook value, if any (spec side:
`genuine generator-type values are accepted, others are silently
ignored`). -/
def asGenType : PyVal → Option GenCls
  | PyVal.type t => some t
  | _ => none

/-- Specification-side description of one hook contribution, following the
spec wording: a single type is appended directly, a sequence is expanded
element-wise keeping its type elements in order, anything else contributes
nothing. -/
def specContributedTypes : PyVal → List GenCls
  | PyVal.type t => [t]
  | PyVal.seq vs => vs.filterMap asGenType
  | PyVal.other => []

lemma hookElemFold_foldl (vs : List PyVal) (acc : List GenCls) :
    vs.foldl hookElemFold acc = acc ++ vs.filterMap asGenType := by
  induction vs generalizing acc with
  | nil => simp
  | cons v vs ih =>
    cases v <;> simp [List.foldl_cons, hookElemFold, asGenType, ih,
      List.append_assoc]

lemma appendHook_eq (gens : List GenCls) (v : PyVal) :
    appendHook gens v = gens ++ specContributedTypes v := by
  cases v <;>
    simp [appendHook, hookValues, specContributedTypes, hookElemFold_foldl,
      hookElemFold, asGenType]

lemma foldl_appendHook (responses : List PyVal) (gens : List GenCls) :
    responses.foldl appendHook gens
      = gens ++ responses.flatMap specContributedTypes := by
  induction responses generalizing gens with
  | nil => simp
  | cons r rs ih =>
    simp [List.foldl_cons, appendHook_eq, ih, List.append_assoc]

lemma specContributedTypes_eq_filterMap (v : PyVal) :
    specContributedTypes v = (hookValues v).filterMap asGenType := by
  cases v <;> simp [specContributedTypes, hookValues, asGenType]

lemma flatMap_specContributedTypes (responses : List PyVal) :
    responses.flatMap specContributedTypes
      = (responses.flatMap hookValues).filterMap asGenType := by
  induction responses with
  | nil => rfl
  | cons r rs ih =>
    simp [List.flatMap_cons, List.filterMap_append, ih,
      specContributedTypes_eq_filterMap]

/-- C3: For every configuration and every list of hook responses,
get_generator_classes returns the fixed base triple (static, articles,
pages), then the conditional generators exactly for the flags that are
set, in the fixed order template-pages, PDF, CSS-preprocessing,
raw-source mirroring, then the hook-contributed generator types last.
Being an equation of a pure function of the settings and the hook
responses, it also gives that repeated calls with identical settings and
identical hook responses return the same list. -/
theorem generator_order_spec (s : ComposerSettings) (responses : List PyVal) :
    get_generator_classes s responses
      = [GenCls.StaticGenerator, GenCls.ArticlesGenerator,
         GenCls.PagesGenerator]
        ++ (if s.template_pages then [GenCls.TemplatePagesGenerator] else [])
        ++ (if s.pdf_generator then [GenCls.PdfGenerator] else [])
        ++ (if s.less_generator then [GenCls.LessCSSGenerator] else [])
        ++ (if s.output_sources then [GenCls.SourceFileGenerator] else [])
        ++ responses.flatMap specContributedTypes := by
  unfold get_generator_classes
  rw [foldl_appendHook]
  cases s.template_pages <;> cases s.pdf_generator <;>
    cases s.less_generator <;> cases s.output_sources <;> simp

/-- C7: every hook response contributes exactly its element-wise generator
types: a single type is appended directly, a sequence is expanded
element-wise in order, and every non-type element is discarded silently
(the composer is a total function, so no exception is raised, and the
appended suffix is the filterMap over asGenType, so no non-type value
appears in the returned generator list). -/
theorem hook_contribution_filtering (s : ComposerSettings)
    (responses : List PyVal) :
    get_generator_classes s responses
      = get_generator_classes s []
        ++ (responses.flatMap hookValues).filterMap asGenType := by
  unfold get_generator_classes
  rw [foldl_appendHook, foldl_appendHook, flatMap_specContributedTypes]
  simp

/-! ## Two-phase build (Pelican.run, lines 134-171)

A generator instance is modelled by its two duck-typed capabilities
(presence of generate_context / generate_output) together with the effect
its generate_context call has on the shared build context.  The run is
modelled as the trace of observable events it produces, with the build
context threaded through the phase-1 loop exactly as the shared mutable
dict is in the source.
-/

/-- A generator instance as Pelican.run sees it: whether it has a
generate_context attribute, whether it has a generate_output attribute,
and what its generate_context call does to the shared context. -/
structure GenInstance (Ctx : Type) where
  hasGenerateContext : Bool
  hasGenerateOutput : Bool
  contextEffect : Ctx → Ctx

/-- An observable event of one Pelican.run execution: a generate_context
call on generator i observing the shared context in a given state, the
clean_output_dir call, the WEBASSETS wiring step, a generate_output call
on generator i with a given writer, and the finalized signal. -/
inductive Event (Ctx : Type) where
  | contextCall (i : Nat) (observed : Ctx)
  | cleanOutput (dir : String)
  | assetWiring
  | outputCall (i : Nat) (writer : Nat)
  | finalized
deriving DecidableEq

/-- Embeds the guard of lines 156-157: the output directory is cleared
when the delete flag is set and os.path.realpath(self.path) does not
start with self.output_path.  The realSrcPath argument stands for the
already-resolved source path. -/
def shouldClean (delete : Bool) (realSrcPath outputPath : String) : Bool :=
  delete && ! pyStartswith realSrcPath outputPath

/-- Embeds the phase-1 loop of lines 150-152: for each generator in list
order, call generate_context if present, threading the shared context. -/
def phase1Run {Ctx : Type} : List (GenInstance Ctx) → Nat → Ctx → List (Event Ctx)
  | [], _, _ => []
  | g :: gs, i, c =>
    if g.hasGenerateContext
    then Event.contextCall i c :: phase1Run gs (i + 1) (g.contextEffect c)
    else phase1Run gs (i + 1) c

/-- Embeds the phase-2 loop of lines 167-169: for each generator in list
order, call generate_output with the shared writer if present. -/
def phase2Run {Ctx : Type} : List (GenInstance Ctx) → Nat → Nat → List (Event Ctx)
  | [], _, _ => []
  | g :: gs, i, w =>
    if g.hasGenerateOutput
    then Event.outputCall i w :: phase2Run gs (i + 1) w
    else phase2Run gs (i + 1) w

/-- Embeds Pelican.run (lines 134-171) as the trace of events of one
build: the phase-1 loop over the shared context (a copy of the settings),
the conditional clean_output_dir call, the conditional WEBASSETS wiring,
the phase-2 loop with the single writer created by get_writer, and the
finalized signal. -/
def runBuild {Ctx : Type} (gens : List (GenInstance Ctx)) (settings : Ctx)
    (realSrcPath outputPath : String) (delete webassets : Bool)
    (writerId : Nat) : List (Event Ctx) :=
  phase1Run gens 0 settings
    ++ (if shouldClean delete realSrcPath outputPath
        then [Event.cleanOutput outputPath] else [])
    ++ (if webassets then [Event.assetWiring] else [])
    ++ phase2Run gens 0 writerId
    ++ [Event.finalized]

/-- Recognizes a clean_output_dir event. -/
def isCleanEvent {Ctx : Type} : Event Ctx → Bool
  | Event.cleanOutput _ => true
  | _ => false

/-- A phase call extracted from the trace: a generate_context call on
generator i, or a generate_output call on generator i with a writer. -/
inductive PhaseCall where
  | ctx (i : Nat)
  | out (i : Nat) (writer : Nat)
deriving DecidableEq

/-- Projects an event to the phase call it represents, if any. -/
def callTag {Ctx : Type} : Event Ctx → Option PhaseCall
  | Event.contextCall i _ => some (PhaseCall.ctx i)
  | Event.outputCall i w => some (PhaseCall.out i w)
  | _ => none

/-- The context a generator at position j observes in phase 1: the
settings copy with the effects of all earlier context-capable generators
applied in list order. -/
def contextObserved {Ctx : Type} (gens : List (GenInstance Ctx)) (j : Nat)
    (c : Ctx) : Ctx :=
  ((gens.take j).filter (fun g => g.hasGenerateContext)).foldl
    (fun x g => g.contextEffect x) c

lemma phase1Run_callTags {Ctx : Type} (gens : List (GenInstance Ctx))
    (i : Nat) (c : Ctx) :
    (phase1Run gens i c).filterMap callTag
      = (List.enumFrom i gens).filterMap
          (fun p => if p.2.hasGenerateContext
                    then some (PhaseCall.ctx p.1) else none) := by
  induction gens generalizing i c with
  | nil => rfl
  | cons g gs ih =>
    by_cases h : g.hasGenerateContext = true <;>
      simp [phase1Run, List.enumFrom, h, callTag, ih]

lemma phase2Run_callTags {Ctx : Type} (gens : List (GenInstance Ctx))
    (i w : Nat) :
    (phase2Run gens i w).filterMap callTag
      = (List.enumFrom i gens).filterMap
          (fun p => if p.2.hasGenerateOutput
                    then some (PhaseCall.out p.1 w) else none) := by
  induction gens generalizing i with
  | nil => rfl
  | cons g gs ih =>
    by_cases h : g.hasGenerateOutput = true <;>
      simp [phase2Run, List.enumFrom, h, callTag, ih]

lemma phase1Run_countP_clean {Ctx : Type} (gens : List (GenInstance Ctx))
    (i : Nat) (c : Ctx) :
    (phase1Run gens i c).countP isCleanEvent = 0 := by
  induction gens generalizing i c with
  | nil => rfl
  | cons g gs ih =>
    by_cases h : g.hasGenerateContext = true <;>
      simp [phase1Run, h, List.countP_cons, isCleanEvent, ih]

lemma phase2Run_countP_clean {Ctx : Type} (gens : List (GenInstance Ctx))
    (i w : Nat) :
    (phase2Run gens i w).countP isCleanEvent = 0 := by
  induction gens generalizing i with
  | nil => rfl
  | cons g gs ih =>
    by_cases h : g.hasGenerateOutput = true <;>
      simp [phase2Run, h, List.countP_cons, isCleanEvent, ih]

lemma runBuild_countP_clean {Ctx : Type} (gens : List (GenInstance Ctx))
    (settings : Ctx) (rs op : String) (del wa : Bool) (w : Nat) :
    (runBuild gens settings rs op del wa w).countP isCleanEvent
      = if shouldClean del rs op then 1 else 0 := by
  unfold runBuild
  rw [List.countP_append, List.countP_append, List.countP_append,
    List.countP_append, phase1Run_countP_clean, phase2Run_countP_clean]
  cases h : shouldClean del rs op <;> cases wa <;>
    simp [List.countP_cons, isCleanEvent]

/-- C2: in Pelican.run, with the delete flag set, the output directory is
cleared (the clean_output_dir event occurs exactly once in the trace) if
the resolved source path does not start with the output path, and the
clearing is skipped as a silent no-op (the event occurs zero times, with
no error event of any kind since runBuild is total) if the resolved
source path starts with the output path; in particular PATH /a/content
with OUTPUT_PATH /a/output clears, while PATH /a with OUTPUT_PATH /a
skips. -/
theorem run_delete_guard {Ctx : Type} (gens : List (GenInstance Ctx))
    (settings : Ctx) (rs op : String) (wa : Bool) (w : Nat) :
    ((runBuild gens settings rs op true wa w).countP isCleanEvent
        = if pyStartswith rs op then 0 else 1)
    ∧ (runBuild gens settings ("/a/content") ("/a/output") true wa w).countP
        isCleanEvent = 1
    ∧ (runBuild gens settings ("/a") ("/a") true wa w).countP
        isCleanEvent = 0 := by
  have key : ∀ rs1 op1 : String,
      (runBuild gens settings rs1 op1 true wa w).countP isCleanEvent
        = if pyStartswith rs1 op1 then 0 else 1 := by
    intro rs1 op1
    rw [runBuild_countP_clean]
    cases h : pyStartswith rs1 op1 <;> simp [shouldClean, h]
  refine ⟨key rs op, ?_, ?_⟩
  · rw [key]
    have h : pyStartswith ("/a/content") ("/a/output") = false := by decide
    simp [h]
  · rw [key]
    have h : pyStartswith ("/a") ("/a") = true := by decide
    simp [h]

/-- C1 counterexample: with the delete flag set, resolved source path /a
and output path /a/out, the source path is a string prefix of the output
path, yet Pelican.run does clear the output directory -- refuting the
claim that clearing never occurs when the resolved source path is a
prefix of the resolved output path. -/
theorem clean_guard_counterexample :
    pyStartswith ("/a/out") ("/a") = true
    ∧ (runBuild ([] : List (GenInstance Nat)) 0 ("/a") ("/a/out") true false
        0).countP isCleanEvent = 1 := by
  constructor <;> decide

/-- C1 amended: output-directory clearing never occurs when the resolved
output path is a string prefix of (or equal to) the resolved source path,
i.e. whenever the resolved source path starts with the output path, even
when the delete flag is set. -/
theorem clean_guard_amended {Ctx : Type} (gens : List (GenInstance Ctx))
    (settings : Ctx) (rs op : String) (del wa : Bool) (w : Nat)
    (h : pyStartswith rs op = true) :
    (runBuild gens settings rs op del wa w).countP isCleanEvent = 0 := by
  rw [runBuild_countP_clean]
  simp [shouldClean, h]

/-- Witness for the amended C1 theorem at a concrete input: source
/a/out/src inside output /a/out, delete flag set, no clearing event. -/
theorem clean_guard_amended_witness :
    (runBuild ([] : List (GenInstance Nat)) 0 ("/a/out/src") ("/a/out") true
      false 0).countP isCleanEvent = 0 :=
  clean_guard_amended ([] : List (GenInstance Nat)) 0 ("/a/out/src")
    ("/a/out") true false 0 (by decide)

/-- C4: the phase calls of one Pelican.run trace are exactly the
generate_context calls, one per context-capable generator in list order
(incapable generators are skipped and the run is total, so no error),
followed by the generate_output calls, one per output-capable generator
in the same list order, each carrying the same shared writer; in
particular every phase-1 call precedes every phase-2 call and the two
phases never interleave. -/
theorem run_phase_separation {Ctx : Type} (gens : List (GenInstance Ctx))
    (settings : Ctx) (rs op : String) (del wa : Bool) (w : Nat) :
    (runBuild gens settings rs op del wa w).filterMap callTag
      = gens.enum.filterMap
          (fun p => if p.2.hasGenerateContext
                    then some (PhaseCall.ctx p.1) else none)
        ++ gens.enum.filterMap
            (fun p => if p.2.hasGenerateOutput
                      then some (PhaseCall.out p.1 w) else none) := by
  unfold runBuild
  rw [List.filterMap_append, List.filterMap_append, List.filterMap_append,
    List.filterMap_append, phase1Run_callTags, phase2Run_callTags]
  have h1 : (List.enum gens) = List.enumFrom 0 gens := rfl
  cases shouldClean del rs op <;> cases wa <;>
    simp [callTag, h1]

lemma contextObserved_zero {Ctx : Type} (gens : List (GenInstance Ctx))
    (c : Ctx) : contextObserved gens 0 c = c := rfl

lemma contextObserved_cons {Ctx : Type} (g : GenInstance Ctx)
    (gs : List (GenInstance Ctx)) (j : Nat) (c : Ctx) :
    contextObserved (g :: gs) (j + 1) c
      = contextObserved gs j
          (if g.hasGenerateContext then g.contextEffect c else c) := by
  by_cases h : g.hasGenerateContext = true <;>
    simp [contextObserved, List.take_succ_cons, List.filter_cons, h]

lemma phase1Run_mem_contextCall {Ctx : Type} (gens : List (GenInstance Ctx))
    (i : Nat) (c : Ctx) (j : Nat) (hj : j < gens.length)
    (hc : (gens.get ⟨j, hj⟩).hasGenerateContext = true) :
    Event.contextCall (i + j) (contextObserved gens j c)
      ∈ phase1Run gens i c := by
  induction gens generalizing i c j with
  | nil => exact absurd hj (by simp)
  | cons g gs ih =>
    cases j with
    | zero =>
      simp only [List.get] at hc
      simp [phase1Run, hc, contextObserved_zero]
    | succ j =>
      simp only [List.length_cons, Nat.succ_lt_succ_iff] at hj
      simp only [List.get] at hc
      rw [contextObserved_cons]
      have harith : i + 1 + j = i + (j + 1) := by omega
      by_cases h : g.hasGenerateContext = true
      · rw [if_pos h]
        have hmem := ih (i + 1) (g.contextEffect c) j hj hc
        rw [harith] at hmem
        simp only [phase1Run, h, if_true]
        exact List.mem_cons_of_mem _ hmem
      · rw [if_neg h]
        have hmem := ih (i + 1) c j hj hc
        rw [harith] at hmem
        simp only [phase1Run]
        rw [if_neg h]
        exact hmem

/-- C8: within one build run the shared context, initialized as a copy of
the settings, is threaded through every phase-1 call in list order: the
generator at position j (when it exposes generate_context) observes the
settings copy with the mutations of exactly the earlier context-capable
generators applied in order -- so every mutation made in phase 1 by
generator i is observed by every generator j greater than i during its
own phase-1 call. -/
theorem phase1_context_visibility {Ctx : Type} (gens : List (GenInstance Ctx))
    (settings : Ctx) (rs op : String) (del wa : Bool) (w : Nat) (j : Nat)
    (hj : j < gens.length)
    (hc : (gens.get ⟨j, hj⟩).hasGenerateContext = true) :
    Event.contextCall j (contextObserved gens j settings)
      ∈ runBuild gens settings rs op del wa w := by
  unfold runBuild
  have h := phase1Run_mem_contextCall gens 0 settings j hj hc
  rw [Nat.zero_add] at h
  simp only [List.append_assoc, List.mem_append]
  exact Or.inl h

/-- Demonstration generators for the shared-context witness: the first
adds 5 to the shared context, the second (context- and output-capable)
observes the result. -/
def demoGens : List (GenInstance Nat) :=
  [GenInstance.mk true false (fun c => c + 5),
   GenInstance.mk true true (fun c => c * 2)]

/-- Witness for the C8 theorem at a concrete input: the second generator
observes context 5, the mutation made by the first generator of the initial
context 0. -/
theorem phase1_context_visibility_witness :
    Event.contextCall 1 5
      ∈ runBuild demoGens 0 ("/src") ("/out") false false 7 := by
  have h := phase1_context_visibility demoGens 0 ("/src") ("/out") false
    false 7 1 (by decide) (by decide)
  simpa [contextObserved, demoGens] using h

/-! ## Autoreload watch loop (main, lines 287-324)

One poll iteration of the while-True loop is driven by the outcomes of
the external calls it makes: the files_changed check on source and
theme, pelican.run() when changes were detected, the file_changed check
on the settings file, and get_instance plus pelican.run() when the
settings file changed.  Each outcome is a normal return, the NoFilesError
exception, a KeyboardInterrupt, or any other exception; the loop body is
re-executed per iteration, so the model steps over a list of
per-iteration outcome records, threading the files_found_error flag.
-/

/-- The outcome of one external call made by the loop body: a normal
return, a raised NoFilesError, a raised KeyboardInterrupt, or any other
raised exception carrying its message. -/
inductive CallResult (A : Type) where
  | ok (a : A)
  | noFiles
  | interrupt
  | exc (msg : String)

/-- The environment behaviour of one poll iteration: the result of the
combined files_changed checks of line 297-298, of the pelican.run() call
of line 301 (consulted only when changes were detected), of the
file_changed check of line 304, and of the get_instance and run calls of
lines 307-308 (consulted only when the settings file changed). -/
structure IterInput where
  filesChanged : CallResult Bool
  runResult : CallResult Unit
  settingsChanged : CallResult Bool
  runResult2 : CallResult Unit

/-- A log line emitted by the watch loop: the warn-once no-valid-files
warning (lines 316-317), the keyboard-interrupt warning (line 312), the
caught-exception warning (lines 321-323), and the info line before a
settings-triggered regeneration (lines 305-306). -/
inductive WatchLog where
  | noValidFiles
  | keyboardQuit
  | caughtException (msg : String)
  | settingsRegen
deriving DecidableEq

/-- How one iteration ends: reaching a time.sleep call of the given
number of milliseconds (500 at line 310, 1000 at line 319), the continue
of line 324, or the break of line 313. -/
inductive IterExit where
  | slept (ms : Nat)
  | continued
  | broke
deriving DecidableEq

/-- The observable result of one iteration of the loop body: the log
lines emitted, the files_found_error flag after the iteration, and how
the iteration ended. -/
structure StepResult where
  logs : List WatchLog
  flag : Bool
  exit : IterExit
deriving DecidableEq

/-- Embeds the NoFilesError handler (lines 314-319): warn once if the
files_found_error flag is still set, clear it, and sleep one second. -/
def noFilesHandler (flag : Bool) : StepResult :=
  StepResult.mk (if flag then [WatchLog.noValidFiles] else [])
    (if flag then false else flag) (IterExit.slept 1000)

/-- Embeds the KeyboardInterrupt handler (lines 311-313): warn and break
out of the loop. -/
def interruptHandler (flag : Bool) : StepResult :=
  StepResult.mk [WatchLog.keyboardQuit] flag IterExit.broke

/-- Embeds the generic exception handler (lines 320-324): warn with the
exception message and continue with the next iteration. -/
def exceptionHandler (flag : Bool) (m : String) : StepResult :=
  StepResult.mk [WatchLog.caughtException m] flag IterExit.continued

/-- Prefixes log lines already emitted before an exception was raised to
the handler result. -/
def prependLogs (pre : List WatchLog) (r : StepResult) : StepResult :=
  StepResult.mk (pre ++ r.logs) r.flag r.exit

/-- Embeds the settings-file part of the loop body (lines 303-310): check
file_changed on the settings source, regenerate with a fresh instance if
it changed, then sleep half a second. -/
def settingsPhase (pre : List WatchLog) (flag : Bool) (inp : IterInput) :
    StepResult :=
  match inp.settingsChanged with
  | CallResult.ok changed =>
    if changed then
      match inp.runResult2 with
      | CallResult.ok _ =>
        StepResult.mk (pre ++ [WatchLog.settingsRegen]) flag
          (IterExit.slept 500)
      | CallResult.noFiles =>
        prependLogs (pre ++ [WatchLog.settingsRegen]) (noFilesHandler flag)
      | CallResult.interrupt =>
        prependLogs (pre ++ [WatchLog.settingsRegen]) (interruptHandler flag)
      | CallResult.exc m =>
        prependLogs (pre ++ [WatchLog.settingsRegen])
          (exceptionHandler flag m)
    else StepResult.mk pre flag (IterExit.slept 500)
  | CallResult.noFiles => prependLogs pre (noFilesHandler flag)
  | CallResult.interrupt => prependLogs pre (interruptHandler flag)
  | CallResult.exc m => prependLogs pre (exceptionHandler flag m)

/-- Embeds one full iteration of the try body and its handlers
(lines 291-324), given the files_found_error flag at iteration entry:
evaluate the files_changed condition; when it holds, re-arm the flag
(lines 299-300) and run the build; then the settings-file part; any
exception is dispatched to the matching handler. -/
def watchStep (flag : Bool) (inp : IterInput) : StepResult :=
  match inp.filesChanged with
  | CallResult.ok changed =>
    if changed then
      let flag1 := if flag = false then true else flag
      match inp.runResult with
      | CallResult.ok _ => settingsPhase [] flag1 inp
      | CallResult.noFiles => noFilesHandler flag1
      | CallResult.interrupt => interruptHandler flag1
      | CallResult.exc m => exceptionHandler flag1 m
    else settingsPhase [] flag inp
  | CallResult.noFiles => noFilesHandler flag
  | CallResult.interrupt => interruptHandler flag
  | CallResult.exc m => exceptionHandler flag m

/-- Embeds the while-True loop of lines 290-324 over a finite schedule of
per-iteration environment behaviours, collecting the emitted log lines;
the loop stops early only when an iteration breaks. -/
def watchLoop (flag : Bool) : List IterInput → List WatchLog
  | [] => []
  | inp :: rest =>
    let r := watchStep flag inp
    if r.exit = IterExit.broke then r.logs
    else r.logs ++ watchLoop r.flag rest

/-- Milliseconds slept for a given iteration ending: only the two
time.sleep call sites sleep; continue and break sleep nothing. -/
def sleepMs : IterExit → Nat
  | IterExit.slept ms => ms
  | _ => 0

/-- The total milliseconds slept by the loop over a schedule (a broken
iteration stops the loop; a continued iteration sleeps nothing). -/
def watchSleep (flag : Bool) : List IterInput → Nat
  | [] => 0
  | inp :: rest =>
    let r := watchStep flag inp
    if r.exit = IterExit.broke then 0
    else sleepMs r.exit + watchSleep r.flag rest

/-- An abnormal way for the loop body to end: the three exception kinds
the handlers distinguish. -/
inductive Abnormal where
  | noFiles
  | interrupt
  | exc (msg : String)
deriving DecidableEq

/-- The abnormal outcome of a single call, if any. -/
def abnormalOf {A : Type} : CallResult A → Option Abnormal
  | CallResult.ok _ => none
  | CallResult.noFiles => some Abnormal.noFiles
  | CallResult.interrupt => some Abnormal.interrupt
  | CallResult.exc m => some (Abnormal.exc m)

/-- The first exception raised along the executed path of one iteration,
if any: files_changed first, then (when changes were detected) the build,
then the settings check, then (when the settings changed) the
regeneration build. -/
def firstAbnormal (inp : IterInput) : Option Abnormal :=
  match inp.filesChanged with
  | CallResult.ok changed =>
    match (if changed then abnormalOf inp.runResult else none) with
    | some a => some a
    | none =>
      match inp.settingsChanged with
      | CallResult.ok c2 => if c2 then abnormalOf inp.runResult2 else none
      | x => abnormalOf x
  | x => abnormalOf x

/-- Recognizes the warn-once no-valid-files warning. -/
def isWarnNoFiles : WatchLog → Bool
  | WatchLog.noValidFiles => true
  | _ => false

/-- An iteration whose source/theme change detection reports a change and
whose subsequent build raises NoFilesError (for example: the theme was
touched while the content directory holds no valid files). -/
def badInput : IterInput :=
  IterInput.mk (CallResult.ok true) CallResult.noFiles
    (CallResult.ok false) (CallResult.ok ())

/-- An iteration in which the change detection itself raises
NoFilesError before anything else happens. -/
def quietNoFilesInput : IterInput :=
  IterInput.mk CallResult.noFiles (CallResult.ok ())
    (CallResult.ok false) (CallResult.ok ())

/-- An iteration with no source/theme change in which the settings file
changed and the regeneration build raises NoFilesError. -/
def settingsNoFilesInput : IterInput :=
  IterInput.mk (CallResult.ok false) (CallResult.ok ())
    (CallResult.ok true) CallResult.noFiles

/-- An iteration whose change detection raises an arbitrary exception
with the given message. -/
def errInput (m : String) : IterInput :=
  IterInput.mk (CallResult.exc m) (CallResult.ok ())
    (CallResult.ok false) (CallResult.ok ())

lemma watchLoop_cons (f : Bool) (inp : IterInput) (rest : List IterInput) :
    watchLoop f (inp :: rest)
      = if (watchStep f inp).exit = IterExit.broke then (watchStep f inp).logs
        else (watchStep f inp).logs ++ watchLoop (watchStep f inp).flag rest :=
  rfl

lemma watchStep_exit_eq (f : Bool) (inp : IterInput) :
    (watchStep f inp).exit
      = match firstAbnormal inp with
        | none => IterExit.slept 500
        | some Abnormal.noFiles => IterExit.slept 1000
        | some Abnormal.interrupt => IterExit.broke
        | some (Abnormal.exc _) => IterExit.continued := by
  obtain ⟨fc, rr, sc, rr2⟩ := inp
  rcases fc with (_|_) | _ | _ | mf <;>
    rcases rr with _ | _ | _ | m1 <;>
    rcases sc with (_|_) | _ | _ | m2 <;>
    rcases rr2 with _ | _ | _ | m3 <;>
    rfl

lemma watchStep_interrupt_logs (f : Bool) (inp : IterInput)
    (h : firstAbnormal inp = some Abnormal.interrupt) :
    WatchLog.keyboardQuit ∈ (watchStep f inp).logs := by
  obtain ⟨fc, rr, sc, rr2⟩ := inp
  rcases fc with (_|_) | _ | _ | mf <;>
    rcases rr with _ | _ | _ | m1 <;>
    rcases sc with (_|_) | _ | _ | m2 <;>
    rcases rr2 with _ | _ | _ | m3 <;>
    simp_all [watchStep, settingsPhase, prependLogs, noFilesHandler,
      interruptHandler, exceptionHandler, firstAbnormal, abnormalOf]

lemma watchStep_exc_first (f : Bool) (m : String) (rr : CallResult Unit)
    (sc : CallResult Bool) (rr2 : CallResult Unit) :
    (watchStep f (IterInput.mk (CallResult.exc m) rr sc rr2)).logs
      = [WatchLog.caughtException m] := rfl

lemma watchStep_exc_run (f : Bool) (m : String) (sc : CallResult Bool)
    (rr2 : CallResult Unit) :
    (watchStep f (IterInput.mk (CallResult.ok true) (CallResult.exc m) sc
        rr2)).logs
      = [WatchLog.caughtException m] := rfl

lemma watchStep_exc_settings (f fcB : Bool) (m : String)
    (rr2 : CallResult Unit) :
    (watchStep f (IterInput.mk (CallResult.ok fcB) (CallResult.ok ())
        (CallResult.exc m) rr2)).logs
      = [WatchLog.caughtException m] := by
  cases fcB <;> rfl

lemma watchStep_exc_regen (f fcB : Bool) (m : String) :
    (watchStep f (IterInput.mk (CallResult.ok fcB) (CallResult.ok ())
        (CallResult.ok true) (CallResult.exc m))).logs
      = [WatchLog.settingsRegen, WatchLog.caughtException m] := by
  cases fcB <;> rfl

lemma watchSleep_errInputs (f : Bool) (msgs : List String) :
    watchSleep f (msgs.map errInput) = 0 := by
  induction msgs generalizing f with
  | nil => rfl
  | cons m ms ih =>
    simp only [List.map_cons]
    have h : watchStep f (errInput m)
        = StepResult.mk [WatchLog.caughtException m] f IterExit.continued :=
      rfl
    simp [watchSleep, h, sleepMs, ih]

/-- C5 counterexample: two consecutive iterations in which the build
signals NoFilesError (the change detection having reported a change each
time, e.g. a touched theme with an empty content directory) form one
contiguous run of no-input iterations, yet the no-valid-files warning is
logged twice: the files-changed branch re-arms the warn gate (lines
299-300) before the build runs, not only after a successful build. -/
theorem watch_warn_counterexample :
    firstAbnormal badInput = some Abnormal.noFiles
    ∧ watchLoop true [badInput, badInput]
        = [WatchLog.noValidFiles, WatchLog.noValidFiles]
    ∧ (watchLoop true [badInput, badInput]).countP isWarnNoFiles = 2 :=
  ⟨rfl, rfl, rfl⟩

lemma watchStep_settingsNoFiles (f : Bool) :
    watchStep f settingsNoFilesInput
      = StepResult.mk
          (WatchLog.settingsRegen ::
            (if f then [WatchLog.noValidFiles] else []))
          false (IterExit.slept 1000) := by
  cases f <;> rfl

lemma watchStep_quietNoFiles (f : Bool) :
    watchStep f quietNoFilesInput
      = StepResult.mk (if f then [WatchLog.noValidFiles] else []) false
          (IterExit.slept 1000) := by
  cases f <;> rfl

lemma watchLoop_replicate_settings (n : Nat) (f : Bool) :
    (watchLoop f
        (List.replicate n settingsNoFilesInput)).countP isWarnNoFiles
      = if n = 0 then 0 else if f then 1 else 0 := by
  induction n generalizing f with
  | zero => rfl
  | succ n ih =>
    rw [List.replicate_succ, watchLoop_cons, watchStep_settingsNoFiles]
    cases n with
    | zero =>
      cases f <;> simp [watchLoop, List.countP_cons, isWarnNoFiles]
    | succ n =>
      cases f <;>
        simp [List.countP_append, List.countP_cons, isWarnNoFiles, ih]

lemma watchLoop_replicate_quiet (n : Nat) (f : Bool) :
    (watchLoop f (List.replicate n quietNoFilesInput)).countP isWarnNoFiles
      = if n = 0 then 0 else if f then 1 else 0 := by
  induction n generalizing f with
  | zero => rfl
  | succ n ih =>
    rw [List.replicate_succ, watchLoop_cons, watchStep_quietNoFiles]
    cases n with
    | zero =>
      cases f <;> simp [watchLoop, List.countP_cons, isWarnNoFiles]
    | succ n =>
      cases f <;>
        simp [List.countP_append, List.countP_cons, isWarnNoFiles, ih]

/-- C5 amended: the no-valid-files warning is logged exactly once per
contiguous run of no-input iterations in which the files-changed
detection branch does not fire -- whether the no-input error is raised by
the change detection itself or by a settings-triggered regeneration
build -- and the warn gate is cleared by the first warning; however, an
iteration whose files-changed detection fires re-arms the gate before the
build runs (regardless of whether that build then succeeds), so a
no-input build in such an iteration warns again. -/
theorem watch_warn_once_amended (n : Nat) (f g : Bool) :
    ((watchLoop f
        (List.replicate n settingsNoFilesInput)).countP isWarnNoFiles
      = if n = 0 then 0 else if f then 1 else 0)
    ∧ ((watchLoop f
        (List.replicate n quietNoFilesInput)).countP isWarnNoFiles
      = if n = 0 then 0 else if f then 1 else 0)
    ∧ (watchStep g badInput).logs = [WatchLog.noValidFiles] :=
  ⟨watchLoop_replicate_settings n f, watchLoop_replicate_quiet n f,
    by cases g <;> rfl⟩

/-- C6: an exception other than KeyboardInterrupt and NoFilesError raised
at any of the four call sites of a poll iteration is caught and logged as
a warning carrying the exception message (first conjunct, one case per
call site); whenever the first exception of an iteration is such a
generic one the iteration ends in continue; an iteration that does not
break is followed by the rest of the schedule; and the loop breaks if and
only if the first exception of the iteration is the interruption signal, in
which case the interrupt warning is logged and the loop returns its logs
cleanly. -/
theorem watch_error_recovery (f fcB : Bool) (m : String)
    (rr rr2x : CallResult Unit) (sc : CallResult Bool) (inp : IterInput)
    (rest : List IterInput) :
    ((watchStep f (IterInput.mk (CallResult.exc m) rr sc rr2x)).logs
        = [WatchLog.caughtException m]
      ∧ (watchStep f (IterInput.mk (CallResult.ok true) (CallResult.exc m)
          sc rr2x)).logs = [WatchLog.caughtException m]
      ∧ (watchStep f (IterInput.mk (CallResult.ok fcB) (CallResult.ok ())
          (CallResult.exc m) rr2x)).logs = [WatchLog.caughtException m]
      ∧ (watchStep f (IterInput.mk (CallResult.ok fcB) (CallResult.ok ())
          (CallResult.ok true) (CallResult.exc m))).logs
        = [WatchLog.settingsRegen, WatchLog.caughtException m])
    ∧ (∀ m2, firstAbnormal inp = some (Abnormal.exc m2)
        → (watchStep f inp).exit = IterExit.continued)
    ∧ ((watchStep f inp).exit ≠ IterExit.broke
        → watchLoop f (inp :: rest)
          = (watchStep f inp).logs
            ++ watchLoop (watchStep f inp).flag rest)
    ∧ ((watchStep f inp).exit = IterExit.broke
        ↔ firstAbnormal inp = some Abnormal.interrupt)
    ∧ (firstAbnormal inp = some Abnormal.interrupt
        → WatchLog.keyboardQuit ∈ (watchStep f inp).logs
          ∧ watchLoop f (inp :: rest) = (watchStep f inp).logs) := by
  refine ⟨⟨watchStep_exc_first f m rr sc rr2x,
    watchStep_exc_run f m sc rr2x,
    watchStep_exc_settings f fcB m rr2x,
    watchStep_exc_regen f fcB m⟩, ?_, ?_, ?_, ?_⟩
  · intro m2 h
    rw [watchStep_exit_eq, h]
  · intro h
    rw [watchLoop_cons, if_neg h]
  · rw [watchStep_exit_eq]
    rcases h : firstAbnormal inp with _ | a
    · simp
    · cases a <;> simp
  · intro h
    refine ⟨watchStep_interrupt_logs f inp h, ?_⟩
    have hx : (watchStep f inp).exit = IterExit.broke := by
      rw [watchStep_exit_eq, h]
    rw [watchLoop_cons, if_pos hx]

/-- Witness for the C6 theorem at a concrete input: a generic exception
iteration logs the caught-exception warning, ends in continue, and the
loop goes on to the next scheduled iteration. -/
theorem watch_error_recovery_witness :
    (watchStep true (errInput ("boom"))).exit = IterExit.continued
    ∧ watchLoop true [errInput ("boom"), quietNoFilesInput]
        = (watchStep true (errInput ("boom"))).logs
          ++ watchLoop (watchStep true (errInput ("boom"))).flag
              [quietNoFilesInput] := by
  have h := watch_error_recovery true false ("boom") (CallResult.ok ())
    (CallResult.ok ()) (CallResult.ok false) (errInput ("boom"))
    [quietNoFilesInput]
  have hexit := h.2.1 ("boom") rfl
  exact ⟨hexit, h.2.2.1 (by rw [hexit]; intro hx; cases hx)⟩

/-- C10: an iteration ends at the half-second sleep exactly when no
exception was raised, at the one-second sleep exactly when the first
exception was NoFilesError, in continue (no sleep at all) exactly when
the first exception was a generic one, and in break exactly on
KeyboardInterrupt; consequently a schedule of consecutive generic-failure
iterations sleeps zero milliseconds in total, polling again with no
delay. -/
theorem watch_sleep_policy (f : Bool) (inp : IterInput)
    (msgs : List String) :
    ((watchStep f inp).exit
        = match firstAbnormal inp with
          | none => IterExit.slept 500
          | some Abnormal.noFiles => IterExit.slept 1000
          | some Abnormal.interrupt => IterExit.broke
          | some (Abnormal.exc _) => IterExit.continued)
    ∧ sleepMs IterExit.continued = 0
    ∧ watchSleep f (msgs.map errInput) = 0 :=
  ⟨watchStep_exit_eq f inp, rfl, watchSleep_errInputs f msgs⟩

/-! ## One-shot mode fatal error handling (main, lines 325-333)

In one-shot mode pelican.run() is wrapped in a try whose handler logs the
error critically and then either re-raises (traceback surfaced) when the
verbosity was set to logging.DEBUG, or calls sys.exit with the
exitcode attribute of the exception, defaulting to 1 when absent.
-/

/-- A Python exception as the handler sees it: its message and its
optional exitcode attribute. -/
structure PyExc where
  msg : String
  exitcode : Option Nat

/-- A log line emitted by the outer handler of main. -/
inductive MainLog where
  | critical (msg : String)
deriving DecidableEq

/-- How the process ends after an exception escaped the build: sys.exit
with the given status, or the exception re-raised (full traceback). -/
inductive MainOutcome where
  | exited (code : Nat)
  | reraised
deriving DecidableEq

/-- The numeric value of logging.DEBUG. -/
def loggingDEBUG : Nat := 10

/-- Embeds the one-shot branch of main (lines 325-333): run the build; on
a normal return nothing is logged and the process ends normally; when an
exception escapes, log it critically, then re-raise if the verbosity is
logging.DEBUG, otherwise sys.exit(getattr(e, exitcode, 1)). -/
def mainOneShot (verbosity : Option Nat) (runExc : Option PyExc) :
    List MainLog × Option MainOutcome :=
  match runExc with
  | none => ([], none)
  | some e =>
    ([MainLog.critical e.msg],
     some (if verbosity = some loggingDEBUG then MainOutcome.reraised
           else MainOutcome.exited (e.exitcode.getD 1)))

/-- C9 counterexample: an exception whose exitcode attribute is 0 makes
the process exit with status 0 -- a zero status -- refuting the claim
that the exit status is always non-zero. -/
theorem fatal_exit_counterexample :
    (mainOneShot none (some (PyExc.mk ("boom") (some 0)))).2
        = some (MainOutcome.exited 0)
    ∧ ¬ ∀ c : Nat,
        (mainOneShot none (some (PyExc.mk ("boom") (some 0)))).2
            = some (MainOutcome.exited c) → c ≠ 0 := by
  refine ⟨rfl, fun h => h 0 rfl rfl⟩

/-- C9 amended: for every exception that escapes the build in one-shot
mode, the error is logged critically and the process exits with a status
equal to the explicit error-carried exit code of the exception when present
and 1 otherwise (so the status is non-zero unless the carried exit code
is itself 0); the full traceback is re-raised exactly when verbosity is
at the maximum (debug) level. -/
theorem fatal_exit_policy (v : Option Nat) (e : PyExc) :
    (mainOneShot v (some e)).1 = [MainLog.critical e.msg]
    ∧ (v ≠ some loggingDEBUG
        → (mainOneShot v (some e)).2
          = some (MainOutcome.exited (e.exitcode.getD 1)))
    ∧ (e.exitcode = none → v ≠ some loggingDEBUG
        → (mainOneShot v (some e)).2 = some (MainOutcome.exited 1))
    ∧ ((mainOneShot v (some e)).2 = some MainOutcome.reraised
        ↔ v = some loggingDEBUG) := by
  by_cases hv : v = some loggingDEBUG
  · refine ⟨rfl, fun h => absurd hv h, fun _ h => absurd hv h, ?_⟩
    simp [mainOneShot, hv]
  · refine ⟨rfl, fun _ => ?_, fun he _ => ?_, ?_⟩
    · simp [mainOneShot, hv]
    · simp [mainOneShot, hv, he]
    · simp [mainOneShot, hv]

/-- Witness for the amended C9 theorem at concrete inputs: with default
verbosity, an exception carrying exitcode 7 exits with status 7, and one
carrying no exitcode exits with status 1. -/
theorem fatal_exit_policy_witness :
    (mainOneShot none (some (PyExc.mk ("a") (some 7)))).2
        = some (MainOutcome.exited 7)
    ∧ (mainOneShot none (some (PyExc.mk ("b") none))).2
        = some (MainOutcome.exited 1) := by
  constructor
  · exact (fatal_exit_policy none (PyExc.mk ("a") (some 7))).2.1
      (by simp [loggingDEBUG])
  · exact (fatal_exit_policy none (PyExc.mk ("b") none)).2.2.1 rfl
      (by simp [loggingDEBUG])
